import Mathlib

/-!
Shallow embedding of `terminal_bench_wrapper.py` (class `TypeScriptAgentWrapper`).

The wrapper orchestrates one invocation of an external TypeScript agent:
it resolves an environment (`_setup_environment`), optionally discovers a
Terminal-Bench container (`_find_tb_container_id`), spawns the agent process
on one of two paths (`_run_with_terminal_bench_session` /
`_run_direct_execution`), captures git metadata (`_capture_git_metadata`),
and classifies the outcome into an `AgentResult` (`perform_task`).

Python exceptions are modelled with `Except PyExc`; the outcomes of the
external subprocesses (docker listing, the agent process, the git snapshot)
are inputs packaged in a `World` record; observable side effects (subprocess
spawns, log-file writes) are recorded in an event trace returned next to the
value.  Python `str.strip` / `str.splitlines` / `str.split` are embedded as
structurally recursive functions over `List Char`.
-/

namespace TBWrapper

/-- Python whitespace as used by `str.strip` / `str.split` on docker output. -/
def isPySpace (c : Char) : Bool :=
  c = ' ' || c = '\t' || c = '\n' || c = '\r' || c = '\x0b' || c = '\x0c'

/-- Drop leading whitespace characters. -/
def dropWs : List Char → List Char
  | [] => []
  | c :: cs => if isPySpace c then dropWs cs else c :: cs

/-- Embedding of Python `str.strip()`: drop leading and trailing whitespace. -/
def pyStrip (s : List Char) : List Char :=
  (dropWs (dropWs s).reverse).reverse

/-- Split on the newline character, keeping the accumulated current line. -/
def splitNlAux : List Char → List Char → List (List Char)
  | cur, [] => [cur.reverse]
  | cur, c :: cs =>
    if c = '\n' then cur.reverse :: splitNlAux [] cs else splitNlAux (c :: cur) cs

/-- Embedding of `s.strip().splitlines()` as used on the docker listing. -/
def pyStripSplitlines (s : List Char) : List (List Char) :=
  let t := pyStrip s
  if t = [] then [] else splitNlAux [] t

/-- Embedding of Python `str.split()` with no separator: split on runs of
whitespace, discarding empty fields. -/
def pySplitWsAux : List Char → List Char → List (List Char)
  | acc, [] => if acc = [] then [] else [acc.reverse]
  | acc, c :: cs =>
    if isPySpace c then
      if acc = [] then pySplitWsAux [] cs else acc.reverse :: pySplitWsAux [] cs
    else pySplitWsAux (c :: acc) cs

/-- Embedding of Python `line.split()`. -/
def pySplitWs (s : List Char) : List (List Char) := pySplitWsAux [] s

/-- Does the first list occur at the head of the second one? -/
def headMatches : List Char → List Char → Bool
  | [], _ => true
  | _ :: _, [] => false
  | a :: as, b :: bs => a = b && headMatches as bs

/-- Embedding of Python `name.endswith(suffix)`. -/
def endsWithL (s suffx : List Char) : Bool :=
  headMatches suffx.reverse s.reverse

/-- Embedding of Python `needle in hay` on strings (substring containment). -/
def hasSubL (needle : List Char) : List Char → Bool
  | [] => headMatches needle []
  | c :: cs => headMatches needle (c :: cs) || hasSubL needle cs

instance {e a : Type} [DecidableEq e] [DecidableEq a] : DecidableEq (Except e a) := fun x y =>
  match x, y with
  | .error u, .error v =>
    if h : u = v then .isTrue (by rw [h]) else .isFalse (by simp [h])
  | .ok u, .ok v =>
    if h : u = v then .isTrue (by rw [h]) else .isFalse (by simp [h])
  | .error _, .ok _ => .isFalse (by simp)
  | .ok _, .error _ => .isFalse (by simp)

/-- Python exceptions relevant to the wrapper. -/
inductive PyExc
  | timeoutExpired
  | runtimeError
  | osError
deriving DecidableEq, Repr

/-- `terminal_bench.agents.failure_mode.FailureMode` members used by the wrapper. -/
inductive FailureMode
  | NONE
  | AGENT_TIMEOUT
  | UNKNOWN_AGENT_ERROR
deriving DecidableEq, Repr

/-- `terminal_bench.agents.base_agent.AgentResult` fields used by the wrapper. -/
structure AgentResult where
  failure_mode : FailureMode
  total_input_tokens : Nat
  total_output_tokens : Nat
deriving DecidableEq, Repr

/-- Process environment, modelled as an association list (`os.environ` copy). -/
abbrev Env := List (String × String)

/-- Membership test: `key in env`. -/
def envContains (e : Env) (k : String) : Bool := e.any (fun p => p.1 = k)

/-- Lookup: `env[key]`. -/
def envGet (e : Env) (k : String) : Option String :=
  (e.find? (fun p => p.1 = k)).map (fun p => p.2)

/-- Assignment `env[key] = v`: the new binding shadows any previous one
(reads via `envGet` / `envContains` take the first match). -/
def envSet (e : Env) (k v : String) : Env :=
  (k, v) :: e

/-- `TypeScriptAgentWrapper._setup_environment`: copy the ambient environment,
fail with `RuntimeError` when neither API key is present, default
`LITELLM_MODEL` from whichever key is present and `LITELLM_TEMPERATURE`
to `0.1`. -/
def setupEnvironment (ambient : Env) : Except PyExc Env :=
  let env := ambient
  if envContains env "OPENROUTER_API_KEY" = false ∧ envContains env "OPENAI_API_KEY" = false then
    .error .runtimeError
  else
    let env1 :=
      if envContains env "LITELLM_MODEL" then env
      else if envContains env "OPENROUTER_API_KEY" then
        envSet env "LITELLM_MODEL" "anthropic/claude-3.5-sonnet"
      else
        envSet env "LITELLM_MODEL" "gpt-4"
    let env2 :=
      if envContains env1 "LITELLM_TEMPERATURE" then env1
      else envSet env1 "LITELLM_TEMPERATURE" "0.1"
    .ok env2

/-- One line of the docker listing matches when its image mentions
`terminal-bench` or its name ends in `_agent_1` / `_app_1`; the matched
container NAME (`parts[2]`) is returned. Lines with fewer than three
whitespace-separated fields are skipped (`continue`). -/
def matchLine (ln : List Char) : Option (List Char) :=
  match pySplitWs ln with
  | _cid :: image :: nm :: _ =>
    if hasSubL ("terminal-bench".data) image
        || endsWithL nm ("_agent_1".data)
        || endsWithL nm ("_app_1".data) then
      some nm
    else
      none
  | _ => none

/-- The `for line in lines` loop of `_find_tb_container_id`. -/
def scanLines : List (List Char) → Option (List Char)
  | [] => none
  | ln :: rest =>
    match matchLine ln with
    | some nm => some nm
    | none => scanLines rest

/-- `TypeScriptAgentWrapper._find_tb_container_id`: parse the output of
`docker ps --format` into lines, return the first matching container name,
else fall back to the first field of the first line (`lines[0].split()[0]`),
else `None`; every exception (docker failure, IndexError) yields `None`. -/
def findTbContainerId (dockerResult : Except PyExc String) : Option String :=
  match dockerResult with
  | .error _ => none
  | .ok stdout =>
    let lines := pyStripSplitlines stdout.data
    match scanLines lines with
    | some nm => some (String.mk nm)
    | none =>
      match lines with
      | [] => none
      | l0 :: _ =>
        match pySplitWs l0 with
        | [] => none
        | w0 :: _ => some (String.mk w0)

/-- Outcome of the single `subprocess.run` call that spawns the agent. -/
inductive ProcOutcome
  | completed (returncode : Int) (stdout stderr : String)
  | timedOut
  | spawnFailure
deriving DecidableEq, Repr

/-- `subprocess.CompletedProcess` fields used by the wrapper. -/
structure CompletedProcess where
  returncode : Int
  stdout : String
  stderr : String
deriving DecidableEq, Repr

/-- The agent `subprocess.run(..., timeout=3600)` call: completion returns the
process record, exceeding the timeout raises `subprocess.TimeoutExpired`,
a spawn failure raises an `OSError`. -/
def runAgentProcess (po : ProcOutcome) : Except PyExc CompletedProcess :=
  match po with
  | .completed rc out err => .ok ⟨rc, out, err⟩
  | .timedOut => .error .timeoutExpired
  | .spawnFailure => .error .osError

/-- Observable side effects of one invocation. -/
inductive Event
  | dockerPs
  | agentSpawn (cmd : List String) (env : Env)
  | gitCapture
  | logWrite (name : String)
deriving DecidableEq, Repr

/-- External-world behaviour for one invocation: the paths computed in
`__init__`, the outcome of each external subprocess, and whether the git
snapshot step raises. -/
structure World where
  nodeExecutable : String
  agentScript : String
  dockerResult : Except PyExc String
  agentOutcome : ProcOutcome
  gitCaptureFails : Bool
deriving Repr

/-- `TypeScriptAgentWrapper._capture_git_metadata`: no-op without a logging
directory; otherwise run the four git queries and write the four snapshot
files, or raise when the step fails. -/
def captureGitMetadata (w : World) (loggingDir : Bool) : Except PyExc Unit × List Event :=
  if loggingDir = false then
    (.ok (), [])
  else if w.gitCaptureFails then
    (.error .osError, [Event.gitCapture])
  else
    (.ok (), [Event.gitCapture,
      Event.logWrite "git-status.txt",
      Event.logWrite "git-diff.patch",
      Event.logWrite "git-diff-staged.patch",
      Event.logWrite "git-head.txt"])

/-- `TypeScriptAgentWrapper._run_with_terminal_bench_session`: discover the
container, fail with `UNKNOWN_AGENT_ERROR` when none is found, else spawn the
agent with `--container <id>` and the `TERMINAL_BENCH_SESSION` marker; the
body's blanket `except Exception` converts every raised exception (including
`subprocess.TimeoutExpired`) into `UNKNOWN_AGENT_ERROR`; the git-metadata
step is wrapped in its own try/except and cannot change the result. -/
def runWithTerminalBenchSession (w : World) (instruction : String) (env : Env)
    (loggingDir : Bool) : AgentResult × List Event :=
  let disc := findTbContainerId w.dockerResult
  match disc with
  | none => (⟨.UNKNOWN_AGENT_ERROR, 0, 0⟩, [Event.dockerPs])
  | some containerId =>
    let cmd := [w.nodeExecutable, w.agentScript, "run", "--container", containerId, instruction]
    let env2 := envSet env "TERMINAL_BENCH_SESSION" "true"
    match runAgentProcess w.agentOutcome with
    | .error _ =>
      (⟨.UNKNOWN_AGENT_ERROR, 0, 0⟩, [Event.dockerPs, Event.agentSpawn cmd env2])
    | .ok proc =>
      let success := proc.returncode = 0
      let gitEvents := (captureGitMetadata w loggingDir).2
      (⟨if success then .NONE else .UNKNOWN_AGENT_ERROR, 0, 0⟩,
        [Event.dockerPs, Event.agentSpawn cmd env2] ++ gitEvents)

/-- `TypeScriptAgentWrapper._run_direct_execution`: spawn the agent with no
container flag; on completion write the two stream logs (when a logging
directory is given), attempt the git snapshot, and classify by return code;
`subprocess.TimeoutExpired` and every other exception are re-raised to the
parent (`raise  # Let the parent handle this`). -/
def runDirectExecution (w : World) (instruction : String) (env : Env)
    (loggingDir : Bool) : Except PyExc AgentResult × List Event :=
  let cmd := [w.nodeExecutable, w.agentScript, "run", instruction]
  match runAgentProcess w.agentOutcome with
  | .error e => (.error e, [Event.agentSpawn cmd env])
  | .ok proc =>
    let logEvents :=
      if loggingDir then
        [Event.logWrite "typescript_agent_stdout.log",
         Event.logWrite "typescript_agent_stderr.log"]
      else []
    let gitEvents := (captureGitMetadata w loggingDir).2
    let success := proc.returncode = 0
    (.ok ⟨if success then .NONE else .UNKNOWN_AGENT_ERROR, 0, 0⟩,
      [Event.agentSpawn cmd env] ++ logEvents ++ gitEvents)

/-- The try-block body of `perform_task`: resolve the environment, then branch
on `hasattr(session, 'send_keys')` into the session-integrated or direct
path. Exceptions escaping the body are returned as `.error`. -/
def performTaskBody (w : World) (instruction : String) (hasSendKeys : Bool)
    (loggingDir : Bool) (ambient : Env) : Except PyExc AgentResult × List Event :=
  match setupEnvironment ambient with
  | .error e => (.error e, [])
  | .ok env =>
    if hasSendKeys then
      let r := runWithTerminalBenchSession w instruction env loggingDir
      (.ok r.1, r.2)
    else
      runDirectExecution w instruction env loggingDir

/-- The exception handlers of `perform_task`: `except subprocess.TimeoutExpired`
yields `AGENT_TIMEOUT`, `except Exception` yields `UNKNOWN_AGENT_ERROR`,
both with zero token counts. -/
def excToResult (e : PyExc) : AgentResult :=
  match e with
  | .timeoutExpired => ⟨.AGENT_TIMEOUT, 0, 0⟩
  | _ => ⟨.UNKNOWN_AGENT_ERROR, 0, 0⟩

/-- `TypeScriptAgentWrapper.perform_task`: run the body and classify any
escaping exception into an `AgentResult`. -/
def performTask (w : World) (instruction : String) (hasSendKeys : Bool)
    (loggingDir : Bool) (ambient : Env) : AgentResult × List Event :=
  match performTaskBody w instruction hasSendKeys loggingDir ambient with
  | (.ok r, evs) => (r, evs)
  | (.error e, evs) => (excToResult e, evs)

/-- An ordering check on event traces: no agent process is spawned strictly
before the first container-discovery attempt. -/
def noSpawnBeforeDiscovery : List Event → Bool
  | [] => true
  | Event.agentSpawn _ _ :: _ => false
  | Event.dockerPs :: _ => true
  | _ :: rest => noSpawnBeforeDiscovery rest

/- ### Helper lemmas -/

theorem envContains_envSet_ne (e : Env) (k v k2 : String) (h : ¬ k = k2) :
    envContains (envSet e k v) k2 = envContains e k2 := by
  simp [envContains, envSet, h]

theorem envGet_envSet_self (e : Env) (k v : String) :
    envGet (envSet e k v) k = some v := by
  simp [envGet, envSet]

theorem envGet_envSet_ne (e : Env) (k v k2 : String) (h : ¬ k = k2) :
    envGet (envSet e k v) k2 = envGet e k2 := by
  simp [envGet, envSet, h]

theorem setupEnvironment_ok_of_cred (ambient : Env)
    (hcred : envContains ambient "OPENROUTER_API_KEY" = true ∨
      envContains ambient "OPENAI_API_KEY" = true) :
    ∃ env, setupEnvironment ambient = .ok env := by
  unfold setupEnvironment
  rcases hcred with h | h <;> simp [h]

theorem performTask_session_eq (w : World) (instruction : String) (loggingDir : Bool)
    (ambient env : Env) (henv : setupEnvironment ambient = .ok env) :
    performTask w instruction true loggingDir ambient
      = runWithTerminalBenchSession w instruction env loggingDir := by
  unfold performTask performTaskBody
  rw [henv]
  rfl

theorem runDirect_completed (w : World) (rc : Int) (out err : String)
    (hc : w.agentOutcome = .completed rc out err)
    (instruction : String) (env : Env) (loggingDir : Bool) :
    runDirectExecution w instruction env loggingDir
      = (.ok ⟨if rc = 0 then .NONE else .UNKNOWN_AGENT_ERROR, 0, 0⟩,
         [Event.agentSpawn [w.nodeExecutable, w.agentScript, "run", instruction] env]
           ++ (if loggingDir then
                [Event.logWrite "typescript_agent_stdout.log",
                 Event.logWrite "typescript_agent_stderr.log"] else [])
           ++ (captureGitMetadata w loggingDir).2) := by
  unfold runDirectExecution runAgentProcess
  rw [hc]

theorem runDirect_err (w : World) (e : PyExc)
    (he : runAgentProcess w.agentOutcome = .error e)
    (instruction : String) (env : Env) (loggingDir : Bool) :
    runDirectExecution w instruction env loggingDir
      = (.error e,
         [Event.agentSpawn [w.nodeExecutable, w.agentScript, "run", instruction] env]) := by
  unfold runDirectExecution
  rw [he]

theorem performTask_direct_completed (w : World) (rc : Int) (out err : String)
    (hc : w.agentOutcome = .completed rc out err)
    (instruction : String) (loggingDir : Bool) (ambient env : Env)
    (henv : setupEnvironment ambient = .ok env) :
    performTask w instruction false loggingDir ambient
      = (⟨if rc = 0 then .NONE else .UNKNOWN_AGENT_ERROR, 0, 0⟩,
         [Event.agentSpawn [w.nodeExecutable, w.agentScript, "run", instruction] env]
           ++ (if loggingDir then
                [Event.logWrite "typescript_agent_stdout.log",
                 Event.logWrite "typescript_agent_stderr.log"] else [])
           ++ (captureGitMetadata w loggingDir).2) := by
  simp only [performTask, performTaskBody, henv]
  rw [runDirect_completed w rc out err hc instruction env loggingDir]
  rfl

theorem performTask_direct_err (w : World) (e : PyExc)
    (he : runAgentProcess w.agentOutcome = .error e)
    (instruction : String) (loggingDir : Bool) (ambient env : Env)
    (henv : setupEnvironment ambient = .ok env) :
    performTask w instruction false loggingDir ambient
      = (excToResult e,
         [Event.agentSpawn [w.nodeExecutable, w.agentScript, "run", instruction] env]) := by
  simp only [performTask, performTaskBody, henv]
  rw [runDirect_err w e he instruction env loggingDir]
  rfl

theorem runSession_none (w : World) (hdisc : findTbContainerId w.dockerResult = none)
    (instruction : String) (env : Env) (loggingDir : Bool) :
    runWithTerminalBenchSession w instruction env loggingDir
      = (⟨.UNKNOWN_AGENT_ERROR, 0, 0⟩, [Event.dockerPs]) := by
  unfold runWithTerminalBenchSession
  rw [hdisc]

theorem runSession_completed (w : World) (c : String)
    (hdisc : findTbContainerId w.dockerResult = some c)
    (rc : Int) (out err : String) (hc : w.agentOutcome = .completed rc out err)
    (instruction : String) (env : Env) (loggingDir : Bool) :
    runWithTerminalBenchSession w instruction env loggingDir
      = (⟨if rc = 0 then .NONE else .UNKNOWN_AGENT_ERROR, 0, 0⟩,
         [Event.dockerPs,
          Event.agentSpawn
            [w.nodeExecutable, w.agentScript, "run", "--container", c, instruction]
            (envSet env "TERMINAL_BENCH_SESSION" "true")]
           ++ (captureGitMetadata w loggingDir).2) := by
  unfold runWithTerminalBenchSession runAgentProcess
  rw [hdisc, hc]

theorem runSession_err (w : World) (c : String)
    (hdisc : findTbContainerId w.dockerResult = some c)
    (e : PyExc) (he : runAgentProcess w.agentOutcome = .error e)
    (instruction : String) (env : Env) (loggingDir : Bool) :
    runWithTerminalBenchSession w instruction env loggingDir
      = (⟨.UNKNOWN_AGENT_ERROR, 0, 0⟩,
         [Event.dockerPs,
          Event.agentSpawn
            [w.nodeExecutable, w.agentScript, "run", "--container", c, instruction]
            (envSet env "TERMINAL_BENCH_SESSION" "true")]) := by
  unfold runWithTerminalBenchSession
  rw [hdisc, he]

/- ### Claim theorems -/

/-- Claim C1: the claim says a timeout on either execution path yields failure
mode Timeout with zero token counts. This theorem evaluates the code at a
concrete timed-out invocation on each path: on the session-integrated path the
blanket `except Exception` of `_run_with_terminal_bench_session` catches
`subprocess.TimeoutExpired` before the dedicated handler in `perform_task`,
so the returned failure mode is `UNKNOWN_AGENT_ERROR`, while the direct path
re-raises the timeout and gets `AGENT_TIMEOUT`. Token counts are zero. -/
theorem sessionPathTimeoutMisclassified :
    (performTask ⟨"node", "index.js", .ok "abc123 img task_agent_1", .timedOut, false⟩
        "task" true true [("OPENROUTER_API_KEY", "k")]).1
      = ⟨FailureMode.UNKNOWN_AGENT_ERROR, 0, 0⟩ ∧
    (performTask ⟨"node", "index.js", .ok "abc123 img task_agent_1", .timedOut, false⟩
        "task" false true [("OPENROUTER_API_KEY", "k")]).1
      = ⟨FailureMode.AGENT_TIMEOUT, 0, 0⟩ := by
  decide

/-- Claim C2 counterexample: the claim says discovery returns the matched
container's ID. On a listing with one container whose id is `abc123` and whose
name `demo_agent_1` ends in a recognized service suffix, discovery returns the
NAME `demo_agent_1`, not the id `abc123`. -/
theorem matchedContainerReturnsNameNotId :
    findTbContainerId (.ok "abc123 ubuntu:22 demo_agent_1") = some "demo_agent_1" ∧
    findTbContainerId (.ok "abc123 ubuntu:22 demo_agent_1") ≠ some "abc123" := by
  decide

/-- Claim C2 (amended): on the session-integrated path, when the container
listing has a line whose name field ends in a recognized service suffix (or
whose image field contains the dataset-image substring), that container's NAME
is returned by discovery and is passed verbatim as the value of the
`--container` flag in the agent command line. -/
theorem matchedContainerNamePassedVerbatim
    (stdout : String) (ln cid image nm : List Char)
    (h1 : pyStripSplitlines stdout.data = [ln])
    (h2 : pySplitWs ln = [cid, image, nm])
    (h3 : (hasSubL ("terminal-bench".data) image || endsWithL nm ("_agent_1".data)
            || endsWithL nm ("_app_1".data)) = true)
    (w : World) (hw : w.dockerResult = .ok stdout)
    (instruction : String) (env : Env) (loggingDir : Bool) :
    findTbContainerId w.dockerResult = some (String.mk nm) ∧
    Event.agentSpawn
        [w.nodeExecutable, w.agentScript, "run", "--container", String.mk nm, instruction]
        (envSet env "TERMINAL_BENCH_SESSION" "true")
      ∈ (runWithTerminalBenchSession w instruction env loggingDir).2 := by
  have hfind : findTbContainerId w.dockerResult = some (String.mk nm) := by
    rw [hw]
    simp [findTbContainerId, h1, scanLines, matchLine, h2, h3]
  refine ⟨hfind, ?_⟩
  unfold runWithTerminalBenchSession
  rw [hfind]
  rcases hra : runAgentProcess w.agentOutcome with e | proc <;> simp [hra]

/-- Witness for the amended claim C2 at a one-container listing whose name
ends in `_app_1`. -/
theorem matchedContainerNamePassedVerbatim_witness :
    findTbContainerId (Except.ok "abc123 ubuntu demo_app_1")
      = some (String.mk "demo_app_1".data) ∧
    Event.agentSpawn
        ["node", "index.js", "run", "--container", String.mk "demo_app_1".data, "t"]
        (envSet [] "TERMINAL_BENCH_SESSION" "true")
      ∈ (runWithTerminalBenchSession
          ⟨"node", "index.js", .ok "abc123 ubuntu demo_app_1", .completed 0 "" "", false⟩
          "t" [] true).2 :=
  matchedContainerNamePassedVerbatim "abc123 ubuntu demo_app_1"
    ("abc123 ubuntu demo_app_1".data) ("abc123".data) ("ubuntu".data) ("demo_app_1".data)
    (by decide) (by decide) (by decide)
    ⟨"node", "index.js", .ok "abc123 ubuntu demo_app_1", .completed 0 "" "", false⟩ rfl
    "t" [] true

/-- Claim C3: when neither `OPENROUTER_API_KEY` nor `OPENAI_API_KEY` is present
in the ambient environment, `_setup_environment` raises `RuntimeError` before
any subprocess is spawned, the event trace is empty (no process spawned, no log
files written), and `perform_task` returns the classified AgentResult
`UNKNOWN_AGENT_ERROR` with zero token counts instead of raising. -/
theorem noCredentialsFailsBeforeAnySubprocess
    (w : World) (instruction : String) (hasSendKeys loggingDir : Bool) (ambient : Env)
    (h1 : envContains ambient "OPENROUTER_API_KEY" = false)
    (h2 : envContains ambient "OPENAI_API_KEY" = false) :
    setupEnvironment ambient = .error .runtimeError ∧
    performTask w instruction hasSendKeys loggingDir ambient
      = (⟨.UNKNOWN_AGENT_ERROR, 0, 0⟩, []) := by
  have hs : setupEnvironment ambient = .error .runtimeError := by
    unfold setupEnvironment
    simp [h1, h2]
  refine ⟨hs, ?_⟩
  unfold performTask performTaskBody
  rw [hs]
  rfl

/-- Witness for claim C3 at a concrete environment holding only `HOME`. -/
theorem noCredentialsFailsBeforeAnySubprocess_witness :
    setupEnvironment [("HOME", "/root")] = .error .runtimeError ∧
    performTask ⟨"node", "index.js", .ok "", .completed 0 "" "", false⟩
        "t" false false [("HOME", "/root")]
      = (⟨.UNKNOWN_AGENT_ERROR, 0, 0⟩, []) :=
  noCredentialsFailsBeforeAnySubprocess
    ⟨"node", "index.js", .ok "", .completed 0 "" "", false⟩ "t" false false
    [("HOME", "/root")] (by decide) (by decide)

/-- Claim C4: when the agent process completes with exit code `rc`, the
AgentResult returned by `perform_task` has failure mode `NONE` exactly when
`rc = 0` and `UNKNOWN_AGENT_ERROR` otherwise, with both token counts zero, on
the direct path and on the session-integrated path alike. -/
theorem completedProcessClassification
    (w : World) (rc : Int) (out err : String)
    (hc : w.agentOutcome = .completed rc out err)
    (ambient : Env)
    (hcred : envContains ambient "OPENROUTER_API_KEY" = true ∨
      envContains ambient "OPENAI_API_KEY" = true)
    (c : String) (hdisc : findTbContainerId w.dockerResult = some c)
    (instruction : String) (loggingDir : Bool) :
    (performTask w instruction false loggingDir ambient).1
        = ⟨if rc = 0 then .NONE else .UNKNOWN_AGENT_ERROR, 0, 0⟩ ∧
    (performTask w instruction true loggingDir ambient).1
        = ⟨if rc = 0 then .NONE else .UNKNOWN_AGENT_ERROR, 0, 0⟩ := by
  obtain ⟨env, henv⟩ := setupEnvironment_ok_of_cred ambient hcred
  constructor
  · rw [performTask_direct_completed w rc out err hc instruction loggingDir ambient env henv]
  · rw [performTask_session_eq w instruction loggingDir ambient env henv,
      runSession_completed w c hdisc rc out err hc instruction env loggingDir]

/-- Witness for claim C4: exit code 0 yields `NONE` at a concrete invocation. -/
theorem completedProcessClassification_witness :
    (performTask ⟨"node", "index.js", .ok "abc123 img task_agent_1", .completed 0 "" "", false⟩
        "t" false false [("OPENAI_API_KEY", "k")]).1
      = ⟨if (0 : Int) = 0 then .NONE else .UNKNOWN_AGENT_ERROR, 0, 0⟩ ∧
    (performTask ⟨"node", "index.js", .ok "abc123 img task_agent_1", .completed 0 "" "", false⟩
        "t" true false [("OPENAI_API_KEY", "k")]).1
      = ⟨if (0 : Int) = 0 then .NONE else .UNKNOWN_AGENT_ERROR, 0, 0⟩ :=
  completedProcessClassification
    ⟨"node", "index.js", .ok "abc123 img task_agent_1", .completed 0 "" "", false⟩
    0 "" "" rfl [("OPENAI_API_KEY", "k")] (Or.inr (by decide))
    "task_agent_1" (by decide) "t" false

/-- Claim C5: container discovery never raises — a failed listing and a listing
with zero containers both return `none` — and on the session-integrated path a
`none` discovery yields `UNKNOWN_AGENT_ERROR` with zero token counts while no
agent process is ever spawned. -/
theorem discoveryFailureClassified
    (e : PyExc) (s : String) (hs : pyStripSplitlines s.data = [])
    (w : World) (hw : findTbContainerId w.dockerResult = none)
    (instruction : String) (env : Env) (loggingDir : Bool) :
    findTbContainerId (.error e) = none ∧
    findTbContainerId (.ok s) = none ∧
    runWithTerminalBenchSession w instruction env loggingDir
      = (⟨.UNKNOWN_AGENT_ERROR, 0, 0⟩, [Event.dockerPs]) ∧
    (∀ cmd env2, Event.agentSpawn cmd env2 ∉
      (runWithTerminalBenchSession w instruction env loggingDir).2) := by
  have h3 := runSession_none w hw instruction env loggingDir
  refine ⟨rfl, ?_, h3, ?_⟩
  · simp [findTbContainerId, hs, scanLines]
  · intro cmd env2
    rw [h3]
    simp

/-- Witness for claim C5 at a failed docker listing. -/
theorem discoveryFailureClassified_witness :
    findTbContainerId (.error .osError) = none ∧
    findTbContainerId (.ok "") = none ∧
    runWithTerminalBenchSession ⟨"node", "index.js", .error .osError, .completed 0 "" "", false⟩
        "t" [] true
      = (⟨.UNKNOWN_AGENT_ERROR, 0, 0⟩, [Event.dockerPs]) ∧
    (∀ cmd env2, Event.agentSpawn cmd env2 ∉
      (runWithTerminalBenchSession ⟨"node", "index.js", .error .osError, .completed 0 "" "", false⟩
        "t" [] true).2) :=
  discoveryFailureClassified .osError ""
    (by decide)
    ⟨"node", "index.js", .error .osError, .completed 0 "" "", false⟩ (by decide)
    "t" [] true

/-- Claim C6: the AgentResult returned by `perform_task` is identical whether
or not the git-metadata snapshot step fails, for every invocation (both paths,
with or without a logging directory, every process outcome). -/
theorem gitCaptureFailureDoesNotChangeResult
    (nodeExe script : String) (dr : Except PyExc String) (po : ProcOutcome)
    (b b2 : Bool) (instruction : String) (hasSendKeys loggingDir : Bool) (ambient : Env) :
    (performTask ⟨nodeExe, script, dr, po, b⟩ instruction hasSendKeys loggingDir ambient).1
      = (performTask ⟨nodeExe, script, dr, po, b2⟩ instruction hasSendKeys loggingDir ambient).1 := by
  unfold performTask performTaskBody
  dsimp only
  cases hse : setupEnvironment ambient with
  | error e => rfl
  | ok env =>
    cases hasSendKeys with
    | false =>
      unfold runDirectExecution
      cases po <;> rfl
    | true =>
      unfold runWithTerminalBenchSession
      cases hfd : findTbContainerId dr with
      | none => rfl
      | some c => cases po <;> rfl

/-- Claim C7: on a session exposing `send_keys`, no agent process is spawned
before container discovery is attempted, and discovery is attempted whenever
the environment resolves; on a session without `send_keys`, discovery is never
attempted. -/
theorem discoveryIffSessionCapable
    (w : World) (instruction : String) (loggingDir : Bool) (ambient : Env) :
    noSpawnBeforeDiscovery (performTask w instruction true loggingDir ambient).2 = true ∧
    ((∃ env, setupEnvironment ambient = .ok env) →
      Event.dockerPs ∈ (performTask w instruction true loggingDir ambient).2) ∧
    Event.dockerPs ∉ (performTask w instruction false loggingDir ambient).2 := by
  unfold performTask performTaskBody
  cases hse : setupEnvironment ambient with
  | error e =>
    refine ⟨rfl, ?_, by simp⟩
    rintro ⟨env2, henv⟩
    exact absurd henv (by simp)
  | ok env =>
    refine ⟨?_, ?_, ?_⟩
    · unfold runWithTerminalBenchSession
      cases hfd : findTbContainerId w.dockerResult with
      | none => rfl
      | some c => cases hao : w.agentOutcome <;> rfl
    · intro _
      unfold runWithTerminalBenchSession
      cases hfd : findTbContainerId w.dockerResult with
      | none => simp
      | some c => cases hao : w.agentOutcome <;> simp [runAgentProcess]
    · unfold runDirectExecution
      cases hao : w.agentOutcome with
      | completed rc out err =>
        unfold captureGitMetadata
        cases loggingDir with
        | false => simp [runAgentProcess]
        | true =>
          cases hgf : w.gitCaptureFails <;> simp [runAgentProcess]
      | timedOut => simp [runAgentProcess]
      | spawnFailure => simp [runAgentProcess]

/-- Witness for claim C7 at a concrete session-capable and plain invocation. -/
theorem discoveryIffSessionCapable_witness :
    noSpawnBeforeDiscovery
      (performTask ⟨"node", "index.js", .ok "", .completed 0 "" "", false⟩
        "t" true true [("OPENAI_API_KEY", "k")]).2 = true ∧
    Event.dockerPs ∈
      (performTask ⟨"node", "index.js", .ok "", .completed 0 "" "", false⟩
        "t" true true [("OPENAI_API_KEY", "k")]).2 ∧
    Event.dockerPs ∉
      (performTask ⟨"node", "index.js", .ok "", .completed 0 "" "", false⟩
        "t" false true [("OPENAI_API_KEY", "k")]).2 := by
  obtain ⟨ha, hb, hc⟩ := discoveryIffSessionCapable
    ⟨"node", "index.js", .ok "", .completed 0 "" "", false⟩ "t" true [("OPENAI_API_KEY", "k")]
  exact ⟨ha, hb ⟨_, rfl⟩, hc⟩

/-- Claim C8: with exactly one recognized credential present and no model
variable, `_setup_environment` resolves the model to that credential's fixed
default (`anthropic/claude-3.5-sonnet` for OpenRouter, `gpt-4` for OpenAI),
and the temperature defaults to `0.1` when unset. -/
theorem singleCredentialModelDefaults
    (e1 e2 : Env)
    (h1a : envContains e1 "OPENROUTER_API_KEY" = true)
    (h1b : envContains e1 "OPENAI_API_KEY" = false)
    (h1c : envContains e1 "LITELLM_MODEL" = false)
    (h1d : envContains e1 "LITELLM_TEMPERATURE" = false)
    (h2a : envContains e2 "OPENROUTER_API_KEY" = false)
    (h2b : envContains e2 "OPENAI_API_KEY" = true)
    (h2c : envContains e2 "LITELLM_MODEL" = false)
    (h2d : envContains e2 "LITELLM_TEMPERATURE" = false) :
    (∃ r, setupEnvironment e1 = .ok r ∧
      envGet r "LITELLM_MODEL" = some "anthropic/claude-3.5-sonnet" ∧
      envGet r "LITELLM_TEMPERATURE" = some "0.1") ∧
    (∃ r, setupEnvironment e2 = .ok r ∧
      envGet r "LITELLM_MODEL" = some "gpt-4" ∧
      envGet r "LITELLM_TEMPERATURE" = some "0.1") := by
  constructor
  · refine ⟨envSet (envSet e1 "LITELLM_MODEL" "anthropic/claude-3.5-sonnet")
      "LITELLM_TEMPERATURE" "0.1", ?_, ?_, ?_⟩
    · unfold setupEnvironment
      simp [h1a, h1b, h1c, h1d, envContains_envSet_ne]
    · rw [envGet_envSet_ne _ _ _ _ (by decide), envGet_envSet_self]
    · rw [envGet_envSet_self]
  · refine ⟨envSet (envSet e2 "LITELLM_MODEL" "gpt-4")
      "LITELLM_TEMPERATURE" "0.1", ?_, ?_, ?_⟩
    · unfold setupEnvironment
      simp [h2a, h2b, h2c, h2d, envContains_envSet_ne]
    · rw [envGet_envSet_ne _ _ _ _ (by decide), envGet_envSet_self]
    · rw [envGet_envSet_self]

/-- Witness for claim C8 at the two one-credential environments. -/
theorem singleCredentialModelDefaults_witness :
    (∃ r, setupEnvironment [("OPENROUTER_API_KEY", "a")] = .ok r ∧
      envGet r "LITELLM_MODEL" = some "anthropic/claude-3.5-sonnet" ∧
      envGet r "LITELLM_TEMPERATURE" = some "0.1") ∧
    (∃ r, setupEnvironment [("OPENAI_API_KEY", "b")] = .ok r ∧
      envGet r "LITELLM_MODEL" = some "gpt-4" ∧
      envGet r "LITELLM_TEMPERATURE" = some "0.1") :=
  singleCredentialModelDefaults [("OPENROUTER_API_KEY", "a")] [("OPENAI_API_KEY", "b")]
    (by decide) (by decide) (by decide) (by decide)
    (by decide) (by decide) (by decide) (by decide)

/-- Claim C9: `perform_task` is total — for every world, instruction, session
capability, logging flag and ambient environment it returns a well-formed
AgentResult with zero token counts — and whenever the try-block body raises,
the returned result is exactly the one produced by the exception handlers. -/
theorem performTaskTotalAndWellFormed
    (w : World) (instruction : String) (hasSendKeys loggingDir : Bool) (ambient : Env) :
    (∃ fm : FailureMode,
      (performTask w instruction hasSendKeys loggingDir ambient).1 = ⟨fm, 0, 0⟩) ∧
    (∀ e evs, performTaskBody w instruction hasSendKeys loggingDir ambient = (.error e, evs) →
      (performTask w instruction hasSendKeys loggingDir ambient).1 = excToResult e) := by
  constructor
  · unfold performTask performTaskBody
    cases hse : setupEnvironment ambient with
    | error e => exact ⟨(excToResult e).failure_mode, by cases e <;> rfl⟩
    | ok env =>
      cases hasSendKeys with
      | false =>
        unfold runDirectExecution
        cases hao : w.agentOutcome with
        | completed rc out err => exact ⟨if rc = 0 then .NONE else .UNKNOWN_AGENT_ERROR, rfl⟩
        | timedOut => exact ⟨.AGENT_TIMEOUT, rfl⟩
        | spawnFailure => exact ⟨.UNKNOWN_AGENT_ERROR, rfl⟩
      | true =>
        unfold runWithTerminalBenchSession
        cases hfd : findTbContainerId w.dockerResult with
        | none => exact ⟨.UNKNOWN_AGENT_ERROR, rfl⟩
        | some c =>
          cases hao : w.agentOutcome with
          | completed rc out err => exact ⟨if rc = 0 then .NONE else .UNKNOWN_AGENT_ERROR, rfl⟩
          | timedOut => exact ⟨.UNKNOWN_AGENT_ERROR, rfl⟩
          | spawnFailure => exact ⟨.UNKNOWN_AGENT_ERROR, rfl⟩
  · intro e evs hbody
    unfold performTask
    rw [hbody]

/-- Witness for claim C9 at a credential-free environment, where the body
raises `RuntimeError` and the handler classifies it. -/
theorem performTaskTotalAndWellFormed_witness :
    (∃ fm : FailureMode,
      (performTask ⟨"node", "index.js", .ok "", .completed 0 "" "", false⟩
        "t" false false []).1 = ⟨fm, 0, 0⟩) ∧
    (performTask ⟨"node", "index.js", .ok "", .completed 0 "" "", false⟩
        "t" false false []).1 = excToResult .runtimeError := by
  obtain ⟨h1, h2⟩ := performTaskTotalAndWellFormed
    ⟨"node", "index.js", .ok "", .completed 0 "" "", false⟩ "t" false false []
  exact ⟨h1, h2 .runtimeError [] (by decide)⟩

/-- Claim C10: when both credentials are present and no model variable is set,
the OpenRouter default wins: the resolved model is
`anthropic/claude-3.5-sonnet`, never `gpt-4`. -/
theorem bothCredentialsDefaultToOpenRouterModel
    (ambient : Env)
    (h1 : envContains ambient "OPENROUTER_API_KEY" = true)
    (h2 : envContains ambient "OPENAI_API_KEY" = true)
    (h3 : envContains ambient "LITELLM_MODEL" = false) :
    ∃ r, setupEnvironment ambient = .ok r ∧
      envGet r "LITELLM_MODEL" = some "anthropic/claude-3.5-sonnet" := by
  by_cases ht : envContains ambient "LITELLM_TEMPERATURE" = true
  · refine ⟨envSet ambient "LITELLM_MODEL" "anthropic/claude-3.5-sonnet", ?_, ?_⟩
    · unfold setupEnvironment
      simp [h1, h2, h3, ht, envContains_envSet_ne]
    · rw [envGet_envSet_self]
  · refine ⟨envSet (envSet ambient "LITELLM_MODEL" "anthropic/claude-3.5-sonnet")
      "LITELLM_TEMPERATURE" "0.1", ?_, ?_⟩
    · have ht2 : envContains ambient "LITELLM_TEMPERATURE" = false := by
        cases hx : envContains ambient "LITELLM_TEMPERATURE" with
        | false => rfl
        | true => exact absurd hx ht
      unfold setupEnvironment
      simp [h1, h2, h3, ht2, envContains_envSet_ne]
    · rw [envGet_envSet_ne _ _ _ _ (by decide), envGet_envSet_self]

/-- Witness for claim C10 at an environment holding both credentials. -/
theorem bothCredentialsDefaultToOpenRouterModel_witness :
    ∃ r, setupEnvironment [("OPENROUTER_API_KEY", "a"), ("OPENAI_API_KEY", "b")] = .ok r ∧
      envGet r "LITELLM_MODEL" = some "anthropic/claude-3.5-sonnet" :=
  bothCredentialsDefaultToOpenRouterModel
    [("OPENROUTER_API_KEY", "a"), ("OPENAI_API_KEY", "b")]
    (by decide) (by decide) (by decide)

end TBWrapper
